import Mathlib

/-!
Shallow embedding of the dc3-python curling players (CurlFighter00.py, CurlFighter01.py,
CurlFighter02.py) and proofs about their shot-planning core.

Python floats are modelled as real numbers.  Distances that may be `math.inf` are modelled
in `WithTop Real`; the `-math.inf` initial best score of the selection loop lives in
`WithBot Real`.  Python exceptions (assertion failures, `math` domain errors, the unbound
name in CurlFighter01) are modelled with `Except PyErr`.  The external `simulator` module is
not part of the repository; it is modelled from the spec as an abstract function parameter.
-/

noncomputable section

namespace DC3

/-- Two-dimensional sheet coordinate, in meters (dc3client models.Position). -/
structure Position where
  x : Real
  y : Real

/-- Raw wire-level position whose fields may be null (checked by get_stone_position). -/
structure RawPosition where
  x : Option Real
  y : Option Real

/-- Wire-level stone record; `position` is the list of sampled positions, item 0 current. -/
structure Coordinate where
  position : List RawPosition

/-- Board snapshot: one list of optional stone records per team. -/
structure Stones where
  team0 : List (Option Coordinate)
  team1 : List (Option Coordinate)

/-- Match state as read by the players: the board and the shot counter. -/
structure State where
  stones : Stones
  shot : Nat

/-- Spin direction of a thrown stone (dc3client models.StoneRotation). -/
inductive StoneRotation where
  | clockwise
  | counterclockwise
deriving DecidableEq

/-- Python exception kinds raised by the embedded code. -/
inductive PyErr where
  | assertionError
  | valueError
  | mathDomainError
  | nameError
deriving DecidableEq

def TEE : Position := ⟨0, 38.405⟩

def BACK : Position := ⟨0, 40.234⟩

def FRONT : Position := ⟨0, 36.576⟩

def HOUSE_RADIUS : Real := 1.83 / 2

def STONE_RADIUS : Real := 0.145

def CENTER_SHOT : Real × Real × StoneRotation := (0.131725, 2.39969, .counterclockwise)

def GUARD_SHOT : Real × Real × StoneRotation := (0.127987, 2.33253, .counterclockwise)

/-- Derived per-stone record {team, slot index, distance to the tee} (StoneRef). -/
structure StoneRef where
  team : Nat
  idx : Nat
  distance : WithTop Real
deriving DecidableEq

instance : Inhabited StoneRef := ⟨⟨0, 0, ⊤⟩⟩

/-- Model of math.atan2 (four-quadrant arctangent, C semantics; atan2 0 0 = 0). -/
def atan2 (y x : Real) : Real :=
  if 0 < x then Real.arctan (y / x)
  else if x < 0 then
    if 0 ≤ y then Real.arctan (y / x) + Real.pi else Real.arctan (y / x) - Real.pi
  else
    if 0 < y then Real.pi / 2 else if y < 0 then -(Real.pi / 2) else 0

/-- get_stone_position (identical in all three files): the current Position of the stone, or
none when it is out of play (index past the list, null record, empty position list, or null
coordinate fields). -/
def get_stone_position (stones : Stones) (team : Nat) (idx : Nat) : Option Position :=
  match (if team = 0 then stones.team0 else stones.team1).get? idx with
  | none => none
  | some none => none
  | some (some coord) =>
    match coord.position with
    | [] => none
    | pos :: _ =>
      match pos.x, pos.y with
      | some px, some py => some ⟨px, py⟩
      | some _, none => none
      | none, _ => none

/-- Distance of the (team, idx) stone from the tee: math.hypot of the offsets, or the
math.inf sentinel (⊤) when the stone is out of play. -/
def stoneDistance (stones : Stones) (team idx : Nat) : WithTop Real :=
  match get_stone_position stones team idx with
  | none => ⊤
  | some pos =>
    ((Real.sqrt ((pos.x - TEE.x) ^ 2 + (pos.y - TEE.y) ^ 2) : Real) : WithTop Real)

/-- The enumeration order of the refs list built by sort_stones_by_distance before sorting:
team 0 indices 0..7, then team 1 indices 0..7. -/
def stoneRefList (stones : Stones) : List StoneRef :=
  (List.range 8).map (fun idx => ⟨0, idx, stoneDistance stones 0 idx⟩)
    ++ (List.range 8).map (fun idx => ⟨1, idx, stoneDistance stones 1 idx⟩)

/-- Boolean comparison used as the sort key order (refs.sort with key r.distance). -/
def distLE (a b : StoneRef) : Bool := decide (a.distance ≤ b.distance)

/-- sort_stones_by_distance (identical in CurlFighter00.py and CurlFighter02.py): all sixteen
(team, idx) refs sorted ascending by distance with a stable sort (Python list.sort). -/
def sort_stones_by_distance (stones : Stones) : List StoneRef :=
  (stoneRefList stones).mergeSort distLE

/-- Helper _poly: sum of coef * x ** i over i, coef in enumerate(reversed(a)). -/
def _poly (a : List Real) (x : Real) : Real :=
  (a.reverse.enum.map (fun ic => ic.2 * x ^ ic.1)).sum

namespace CurlFighter00

/-- Regime-selected polynomial coefficients kC0 of CurlFighter00.estimate_shot_velocity_fcv1. -/
def kC0 (target_speed : Real) : List Real :=
  if target_speed ≤ 0.05 then [0.0005048122574925176, 0.2756242531609261]
  else if target_speed ≤ 1.0 then [-0.0014309170115803444, 0.9858457898438147]
  else [1.0833113118071224e-6, -0.00012132851917870833, 0.004578093297561233,
    0.9767006869364527]

/-- Regime-selected logarithmic coefficients kC1. -/
def kC1 (target_speed : Real) : Real × Real × Real :=
  if target_speed ≤ 0.05 then
    (0.00046669575066030805, -29.898958358378636, -0.0014030973174948508)
  else if target_speed ≤ 1.0 then
    (-0.0008339331735471273, -29.86751291726946, -0.19811799977982522)
  else (0.07950648211492622, -8.228225657195706, -0.05601306077702578)

/-- Regime-selected linear coefficients kC2. -/
def kC2 (target_speed : Real) : Real × Real :=
  if target_speed ≤ 0.05 then (0.13968687866736632, 0.41120940058777616)
  else if target_speed ≤ 1.0 then (0.13967323742978, 0.42816312110477517)
  else (0.14140440186382008, 0.3875782508767419)

/-- target_r = math.hypot(target.x, target.y). -/
def target_r (target : Position) : Real := Real.sqrt (target.x ^ 2 + target.y ^ 2)

/-- Argument of math.log inside c1; math.log raises a domain error when it is not positive. -/
def logArg (target : Position) (target_speed : Real) : Real :=
  target_r target + (kC1 target_speed).2.1

/-- c0(r) = _poly(kC0, r). -/
def c0 (target_speed r : Real) : Real := _poly (kC0 target_speed) r

/-- c1(r) = -kC1[0] * math.log(r + kC1[1]) + kC1[2]. -/
def c1 (target_speed r : Real) : Real :=
  -(kC1 target_speed).1 * Real.log (r + (kC1 target_speed).2.1) + (kC1 target_speed).2.2

/-- c2(r) = kC2[0] * r + kC2[1]. -/
def c2 (target_speed r : Real) : Real := (kC2 target_speed).1 * r + (kC2 target_speed).2

/-- Radicand of v0_mag: c0(r) * target_speed ** 2 + c1(r) * target_speed + c2(r). -/
def quad (target : Position) (target_speed : Real) : Real :=
  c0 target_speed (target_r target) * target_speed ^ 2
    + c1 target_speed (target_r target) * target_speed
    + c2 target_speed (target_r target)

/-- rotation_factor: 1.0 for counterclockwise, else -1.0. -/
def rotation_factor (rotation : StoneRotation) : Real :=
  if rotation = StoneRotation.counterclockwise then 1 else -1

/-- CurlFighter00.estimate_shot_velocity_fcv1.  The two leading asserts, the math.log and
math.sqrt domain errors, and the postcondition assert target_speed < v0_mag are modelled as
error results; on success the returned pair is v0_mag times (cos, sin) of the corrected
angle atan2(target.y, target.x) + rotation_factor * 0.25 / target_r. -/
def estimate_shot_velocity_fcv1 (target : Position) (target_speed : Real)
    (rotation : StoneRotation) : Except PyErr (Real × Real) :=
  if ¬(0 ≤ target_speed ∧ target_speed ≤ 4) then .error .assertionError
  else if ¬(0 < target_r target) then .error .assertionError
  else if logArg target target_speed ≤ 0 then .error .mathDomainError
  else if quad target target_speed < 0 then .error .mathDomainError
  else if ¬(target_speed < Real.sqrt (quad target target_speed)) then .error .assertionError
  else
    .ok (Real.sqrt (quad target target_speed)
          * Real.cos (atan2 target.y target.x
              + rotation_factor rotation * 0.25 / target_r target),
        Real.sqrt (quad target target_speed)
          * Real.sin (atan2 target.y target.x
              + rotation_factor rotation * 0.25 / target_r target))

/-- Reference spin sign of the spec: +1 for counterclockwise, -1 for clockwise. -/
def spinSign (rotation : StoneRotation) : Real :=
  if rotation = StoneRotation.counterclockwise then 1 else -1

/-- Reference empirical angular constant K of the spec (delta_const in the source). -/
def spec_K : Real := 0.25

/-- Definition following the words of the spec: reference launch-speed magnitude
v0 = sqrt(c0(r) * desiredSpeed^2 + c1(r) * desiredSpeed + c2(r)), with the coefficient
triple selected by the desiredSpeed regime (the calibration constants are carried over
unchanged from the source, as the spec prescribes). -/
def spec_v0 (target : Position) (desiredSpeed : Real) : Real :=
  Real.sqrt (c0 desiredSpeed (target_r target) * desiredSpeed ^ 2
    + c1 desiredSpeed (target_r target) * desiredSpeed
    + c2 desiredSpeed (target_r target))

/-- Definition following the words of the spec: vx = v0 * cos(targetBearing + deltaAngle)
with targetBearing = atan2(target.y, target.x) and deltaAngle = spinSign * K / r. -/
def spec_vx (target : Position) (desiredSpeed : Real) (rotation : StoneRotation) : Real :=
  spec_v0 target desiredSpeed
    * Real.cos (atan2 target.y target.x + spinSign rotation * spec_K / target_r target)

/-- Definition following the words of the spec: vy = v0 * sin(targetBearing + deltaAngle). -/
def spec_vy (target : Position) (desiredSpeed : Real) (rotation : StoneRotation) : Real :=
  spec_v0 target desiredSpeed
    * Real.sin (atan2 target.y target.x + spinSign rotation * spec_K / target_r target)

/-- CurlFighter00.ThinkingAI.decide: take out the nearest stone when the opponent leads in
the house (velocity from the regression estimator, which may raise), otherwise alternate
center and guard shots by the parity of the shot counter. -/
def ThinkingAI.decide (state : State) (my_team : String) :
    Except PyErr (Real × Real × StoneRotation) :=
  if (sort_stones_by_distance state.stones).headI.distance
        < ((HOUSE_RADIUS + STONE_RADIUS : Real) : WithTop Real)
      ∧ (sort_stones_by_distance state.stones).headI.team
          ≠ (if my_team = "team0" then 0 else 1) then
    match get_stone_position state.stones (sort_stones_by_distance state.stones).headI.team
        (sort_stones_by_distance state.stones).headI.idx with
    | some target_pos =>
      match estimate_shot_velocity_fcv1 target_pos 3 .clockwise with
      | .ok v => .ok (v.1, v.2, .clockwise)
      | .error e => .error e
    | none => if state.shot % 2 = 0 then .ok CENTER_SHOT else .ok GUARD_SHOT
  else if state.shot % 2 = 0 then .ok CENTER_SHOT else .ok GUARD_SHOT

end CurlFighter00

namespace CurlFighter01

/-- CurlFighter01.estimate_shot_velocity_fcv1.  After the assert and the duplicated range
check, the body evaluates simulator.estimate_shot_velocity(float(target.x), float(target.y),
float(target_speed), rot_sign); the name rot_sign is never bound anywhere in the module, so
evaluating the argument list raises NameError before any external call happens and the
function can never return a pair. -/
def estimate_shot_velocity_fcv1 (target : Position) (target_speed : Real)
    (rotation : StoneRotation) : Except PyErr (Real × Real) :=
  if ¬(0 ≤ target_speed ∧ target_speed ≤ 4) then .error .assertionError
  else if ¬(0 ≤ target_speed ∧ target_speed ≤ 4) then .error .valueError
  else .error .nameError

end CurlFighter01

namespace CurlFighter02

/-- Modelled from the spec (forward simulator boundary): the external module simulator and
its class StoneSimulator are not part of the repository.  The simulator consumes the sixteen
current stone positions (absent stones are not-a-number sentinels in the source, modelled
here as none) together with the shot vector (vx, vy, rotation sign), and returns the final
resting positions of all sixteen stones (row index team * 8 + idx, modelled as a function
out of the row index) plus a validity flag.  The all-zero velocity arrays passed at the call
site are constant and carry no information, so they are omitted from the input record. -/
structure SimInput where
  positions : List (Option (Real × Real))
  shot_vector : Real × Real × Real

/-- Abstract external simulator (StoneSimulator.simulator), modelled from the spec. -/
def SimFun : Type := SimInput → (Nat → Real × Real) × Bool

/-- CurlFighter02.estimate_shot_velocity_fcv1: angle = atan2(target.y - 2.4, target.x),
vx = cos(angle) * target_speed, vy = sin(angle) * target_speed.  The rotation argument is
ignored by the source and the function is total. -/
def estimate_shot_velocity_fcv1 (target : Position) (target_speed : Real)
    (rotation : StoneRotation) : Real × Real :=
  (Real.cos (atan2 (target.y - 2.4) target.x) * target_speed,
    Real.sin (atan2 (target.y - 2.4) target.x) * target_speed)

/-- The pos_list built inside evaluate_shot: current positions of team 0 stones 0..7 then
team 1 stones 0..7, with the not-a-number sentinel rows modelled as none. -/
def pos_list (stones : Stones) : List (Option (Real × Real)) :=
  (List.range 8).map (fun idx => (get_stone_position stones 0 idx).map (fun p => (p.x, p.y)))
    ++ (List.range 8).map (fun idx =>
      (get_stone_position stones 1 idx).map (fun p => (p.x, p.y)))

/-- rot_sign: +1 if the rotation is counterclockwise, else -1. -/
def rot_sign (rotation : StoneRotation) : Real :=
  if rotation = StoneRotation.counterclockwise then 1 else -1

/-- Final stone positions returned by the simulator call inside evaluate_shot. -/
def simResult (sim : SimFun) (stones : Stones) (target : Position) (speed : Real)
    (rotation : StoneRotation) : Nat → Real × Real :=
  (sim ⟨pos_list stones,
    ((estimate_shot_velocity_fcv1 target speed rotation).1,
      (estimate_shot_velocity_fcv1 target speed rotation).2,
      rot_sign rotation)⟩).1

/-- Validity flag returned by the simulator call inside evaluate_shot (bound in the source
to the name flag and never read afterwards). -/
def simFlag (sim : SimFun) (stones : Stones) (target : Position) (speed : Real)
    (rotation : StoneRotation) : Bool :=
  (sim ⟨pos_list stones,
    ((estimate_shot_velocity_fcv1 target speed rotation).1,
      (estimate_shot_velocity_fcv1 target speed rotation).2,
      rot_sign rotation)⟩).2

/-- Score loop of evaluate_shot: for team_idx in (0, 1) and i in range(8), add +1 (own
team) or -1 (opponent) whenever the final position of stone team_idx * 8 + i lies within
HOUSE_RADIUS of the tee. -/
def scoreLoop (result : Nat → Real × Real) (my_team_idx : Nat) : Real :=
  (List.range 2).foldl (fun score team_idx =>
    (List.range 8).foldl (fun score i =>
      if Real.sqrt (((result (team_idx * 8 + i)).1 - TEE.x) ^ 2
          + ((result (team_idx * 8 + i)).2 - TEE.y) ^ 2) ≤ HOUSE_RADIUS
      then score + (if team_idx = my_team_idx then 1 else -1)
      else score) score) 0

/-- Definition following the words of the spec: the number of stones of the given team whose
simulated final position lies within HOUSE_RADIUS of the tee. -/
def spec_house_count (result : Nat → Real × Real) (team : Nat) : Nat :=
  ((List.range 8).filter (fun i =>
    decide (Real.sqrt (((result (team * 8 + i)).1 - TEE.x) ^ 2
      + ((result (team * 8 + i)).2 - TEE.y) ^ 2) ≤ HOUSE_RADIUS))).length

/-- CurlFighter02.evaluate_shot: estimate the launch velocity, run the simulator on the
current board, and return (vx, vy, rotation, score). -/
def evaluate_shot (sim : SimFun) (state : State) (my_team_idx : Nat) (target : Position)
    (speed : Real) (rotation : StoneRotation) : Real × Real × StoneRotation × Real :=
  ((estimate_shot_velocity_fcv1 target speed rotation).1,
    (estimate_shot_velocity_fcv1 target speed rotation).2,
    rotation,
    scoreLoop (simResult sim state.stones target speed rotation) my_team_idx)

/-- Stones inside the house zone: refs whose distance is below HOUSE_RADIUS + STONE_RADIUS. -/
def in_house_refs (stones : Stones) : List StoneRef :=
  (sort_stones_by_distance stones).filter
    (fun r => decide (r.distance < ((HOUSE_RADIUS + STONE_RADIUS : Real) : WithTop Real)))

/-- Candidate block of CurlFighter02.ThinkingAI.decide: three mutually exclusive branches on
the board state (empty house, own stone nearest, opponent stone nearest), each yielding a
fixed list of three (target, speed, rotation) proposals. -/
def candidates (state : State) (my_team_idx : Nat) : List (Position × Real × StoneRotation) :=
  if (in_house_refs state.stones).isEmpty then
    [(TEE, 2.5, .counterclockwise), (TEE, 4.0, .counterclockwise),
      (FRONT, 2.5, .counterclockwise)]
  else if (sort_stones_by_distance state.stones).headI.team = my_team_idx then
    [(FRONT, 2.5, .counterclockwise), (BACK, 2.5, .counterclockwise),
      (BACK, 3.0, .counterclockwise)]
  else
    [(TEE, 4.0, .counterclockwise), (TEE, 4.0, .clockwise), (TEE, 3.5, .counterclockwise)]

/-- Output type of the decision: a launch velocity with its rotation. -/
def Shot : Type := Real × Real × StoneRotation

/-- One step of the best-shot search loop: replace the best seen so far only when the new
score is strictly greater (sc > best_score in the source). -/
def selStep (acc : Option Shot × WithBot Real) (e : Shot × Real) :
    Option Shot × WithBot Real :=
  if ((e.2 : Real) : WithBot Real) > acc.2 then (some e.1, ((e.2 : Real) : WithBot Real))
  else acc

/-- The best-shot search loop of CurlFighter02.ThinkingAI.decide, starting from best = None
and best_score = -math.inf (⊥). -/
def selectBestShot (scored : List (Shot × Real)) : Option Shot :=
  (scored.foldl selStep (none, ⊥)).1

/-- The candidates of the acting side paired with their evaluated shot data, in generator
order, exactly as the loop of decide visits them. -/
def scoredCandidates (sim : SimFun) (state : State) (my_team_idx : Nat) :
    List (Shot × Real) :=
  (candidates state my_team_idx).map (fun c =>
    (((evaluate_shot sim state my_team_idx c.1 c.2.1 c.2.2).1,
        (evaluate_shot sim state my_team_idx c.1 c.2.1 c.2.2).2.1,
        (evaluate_shot sim state my_team_idx c.1 c.2.1 c.2.2).2.2.1),
      (evaluate_shot sim state my_team_idx c.1 c.2.1 c.2.2).2.2.2))

/-- CurlFighter02.ThinkingAI.decide: evaluate all candidates and keep the best-scoring one
(first seen wins ties); None can only result from an empty candidate list. -/
def ThinkingAI.decide (sim : SimFun) (state : State) (my_team : String) : Option Shot :=
  selectBestShot (scoredCandidates sim state (if my_team = "team0" then 0 else 1))

end CurlFighter02

/-- A board snapshot with both team lists empty: every stone is out of play. -/
def emptyStones : Stones := ⟨[], []⟩

/-- Stub simulator used as a concrete input: every stone settles on the tee and the
validity flag is false. -/
def simAllAtTeeInvalid : CurlFighter02.SimFun :=
  fun _ => (fun _ => (0, 38.405), false)

/-- Stub simulator used as a concrete input: every stone settles on the tee and the
validity flag is true. -/
def simAllAtTeeValid : CurlFighter02.SimFun :=
  fun _ => (fun _ => (0, 38.405), true)

/-- Concrete two-element scored candidate list with a tie, used as a witness input. -/
def sampleScored : List (CurlFighter02.Shot × Real) :=
  [((0, 1, StoneRotation.counterclockwise), 3), ((2, 3, StoneRotation.clockwise), 3)]

/-! Helper lemmas. -/

theorem foldl_if_count (P : Nat → Prop) [DecidablePred P] (c : Real) :
    ∀ (l : List Nat) (acc : Real),
      l.foldl (fun a i => if P i then a + c else a) acc
        = acc + c * ((l.filter (fun i => decide (P i))).length : Real)
  | [], _ => by simp
  | i :: t, acc => by
    by_cases h : P i
    · rw [List.foldl_cons, if_pos h, foldl_if_count P c t (acc + c)]
      have hf : (i :: t).filter (fun j => decide (P j))
          = i :: t.filter (fun j => decide (P j)) := by
        simp [List.filter_cons, h]
      rw [hf, List.length_cons]
      push_cast
      ring
    · rw [List.foldl_cons, if_neg h, foldl_if_count P c t acc]
      have hf : (i :: t).filter (fun j => decide (P j))
          = t.filter (fun j => decide (P j)) := by
        simp [List.filter_cons, h]
      rw [hf]

theorem scoreLoop_eq_counts (result : Nat → Real × Real) (my : Nat) :
    CurlFighter02.scoreLoop result my
      = (if 0 = my then (1 : Real) else -1) * (CurlFighter02.spec_house_count result 0 : Real)
        + (if 1 = my then (1 : Real) else -1)
          * (CurlFighter02.spec_house_count result 1 : Real) := by
  have h2 : List.range 2 = [0, 1] := rfl
  rw [CurlFighter02.scoreLoop, h2, List.foldl_cons, List.foldl_cons, List.foldl_nil]
  rw [foldl_if_count (fun i => Real.sqrt (((result (0 * 8 + i)).1 - TEE.x) ^ 2
      + ((result (0 * 8 + i)).2 - TEE.y) ^ 2) ≤ HOUSE_RADIUS)
    (if 0 = my then (1 : Real) else -1) (List.range 8) 0]
  rw [foldl_if_count (fun i => Real.sqrt (((result (1 * 8 + i)).1 - TEE.x) ^ 2
      + ((result (1 * 8 + i)).2 - TEE.y) ^ 2) ≤ HOUSE_RADIUS)
    (if 1 = my then (1 : Real) else -1) (List.range 8)]
  rw [CurlFighter02.spec_house_count, CurlFighter02.spec_house_count]
  ring

theorem selLoop_stay :
    ∀ (l : List (CurlFighter02.Shot × Real)) (acc : Option CurlFighter02.Shot × WithBot Real),
      (∀ e ∈ l, ((e.2 : Real) : WithBot Real) ≤ acc.2) →
      l.foldl CurlFighter02.selStep acc = acc
  | [], _, _ => rfl
  | e :: t, acc, h => by
    rw [List.foldl_cons]
    have hstep : CurlFighter02.selStep acc e = acc := by
      rw [CurlFighter02.selStep, if_neg (not_lt.mpr (h e (List.mem_cons_self e t)))]
    rw [hstep]
    exact selLoop_stay t acc (fun x hx => h x (List.mem_cons_of_mem e hx))

theorem selLoop_firstMax :
    ∀ (l : List (CurlFighter02.Shot × Real)) (b : Option CurlFighter02.Shot)
      (s : WithBot Real),
      (∃ e ∈ l, s < ((e.2 : Real) : WithBot Real)) →
      ∃ i, ∃ hi : i < l.length,
        l.foldl CurlFighter02.selStep (b, s)
            = (some (l.get ⟨i, hi⟩).1, (((l.get ⟨i, hi⟩).2 : Real) : WithBot Real))
          ∧ s < (((l.get ⟨i, hi⟩).2 : Real) : WithBot Real)
          ∧ (∀ j, ∀ hj : j < l.length, (l.get ⟨j, hj⟩).2 ≤ (l.get ⟨i, hi⟩).2)
          ∧ (∀ j, ∀ hj : j < i,
              (((l.get ⟨j, Nat.lt_trans hj hi⟩).2 : Real) : WithBot Real) ≤ s
                ∨ (l.get ⟨j, Nat.lt_trans hj hi⟩).2 < (l.get ⟨i, hi⟩).2)
  | [], _, _, h => absurd h (by simp)
  | e :: t, b, s, h => by
    rw [List.foldl_cons]
    by_cases hse : s < ((e.2 : Real) : WithBot Real)
    · have hstep : CurlFighter02.selStep (b, s) e
          = (some e.1, ((e.2 : Real) : WithBot Real)) := by
        rw [CurlFighter02.selStep, if_pos hse]
      rw [hstep]
      by_cases ht : ∃ x ∈ t, ((e.2 : Real) : WithBot Real) < ((x.2 : Real) : WithBot Real)
      · obtain ⟨i, hi, heq, hgt, hmax, hearlier⟩ :=
          selLoop_firstMax t (some e.1) ((e.2 : Real) : WithBot Real) ht
        refine ⟨i + 1, Nat.succ_lt_succ hi, heq, lt_trans hse hgt, ?_, ?_⟩
        · intro j hj
          cases j with
          | zero => exact le_of_lt (WithBot.coe_lt_coe.mp hgt)
          | succ j => exact hmax j (Nat.lt_of_succ_lt_succ hj)
        · intro j hj
          cases j with
          | zero => exact Or.inr (WithBot.coe_lt_coe.mp hgt)
          | succ j =>
            rcases hearlier j (Nat.lt_of_succ_lt_succ hj) with hle | hlt
            · exact Or.inr (lt_of_le_of_lt (WithBot.coe_le_coe.mp hle)
                (WithBot.coe_lt_coe.mp hgt))
            · exact Or.inr hlt
      · push_neg at ht
        have hstay : t.foldl CurlFighter02.selStep
            (some e.1, ((e.2 : Real) : WithBot Real))
            = (some e.1, ((e.2 : Real) : WithBot Real)) :=
          selLoop_stay t _ (fun x hx => ht x hx)
        refine ⟨0, Nat.succ_pos _, hstay, hse, ?_, ?_⟩
        · intro j hj
          cases j with
          | zero => exact le_refl _
          | succ j =>
            exact WithBot.coe_le_coe.mp
              (ht (t.get ⟨j, Nat.lt_of_succ_lt_succ hj⟩) (t.get_mem _ _))
        · intro j hj
          exact absurd hj (Nat.not_lt_zero j)
    · have hstep : CurlFighter02.selStep (b, s) e = (b, s) := by
        rw [CurlFighter02.selStep, if_neg hse]
      rw [hstep]
      obtain ⟨x, hx, hsx⟩ := h
      have hxt : x ∈ t := by
        rcases List.mem_cons.mp hx with hxe | hxt
        · exact absurd (hxe ▸ hsx) hse
        · exact hxt
      obtain ⟨i, hi, heq, hgt, hmax, hearlier⟩ := selLoop_firstMax t b s ⟨x, hxt, hsx⟩
      refine ⟨i + 1, Nat.succ_lt_succ hi, heq, hgt, ?_, ?_⟩
      · intro j hj
        cases j with
        | zero =>
          exact le_of_lt (WithBot.coe_lt_coe.mp (lt_of_le_of_lt (not_lt.mp hse) hgt))
        | succ j => exact hmax j (Nat.lt_of_succ_lt_succ hj)
      · intro j hj
        cases j with
        | zero => exact Or.inl (not_lt.mp hse)
        | succ j => exact hearlier j (Nat.lt_of_succ_lt_succ hj)

theorem distLE_trans : ∀ (a b c : StoneRef), distLE a b → distLE b c → distLE a c := by
  intro a b c hab hbc
  simp only [distLE, decide_eq_true_eq] at *
  exact le_trans hab hbc

theorem distLE_total : ∀ (a b : StoneRef), distLE a b || distLE b a := by
  intro a b
  simp only [distLE, Bool.or_eq_true, decide_eq_true_eq]
  exact le_total _ _

theorem length_stoneRefList (stones : Stones) : (stoneRefList stones).length = 16 := by
  simp [stoneRefList]

theorem length_sort_stones (stones : Stones) :
    (sort_stones_by_distance stones).length = 16 := by
  rw [sort_stones_by_distance, List.length_mergeSort, length_stoneRefList]

theorem sort_stones_ne_nil (stones : Stones) : sort_stones_by_distance stones ≠ [] :=
  List.length_pos.mp (by rw [length_sort_stones]; norm_num)

theorem mem_stoneRefList_of_lt (stones : Stones) (team idx : Nat) (ht : team < 2)
    (hi : idx < 8) :
    (⟨team, idx, stoneDistance stones team idx⟩ : StoneRef) ∈ stoneRefList stones := by
  interval_cases team
  · exact List.mem_append_left _ (List.mem_map.mpr ⟨idx, List.mem_range.mpr hi, rfl⟩)
  · exact List.mem_append_right _ (List.mem_map.mpr ⟨idx, List.mem_range.mpr hi, rfl⟩)

theorem stoneRefList_all_top (stones : Stones)
    (h : ∀ team idx, team < 2 → idx < 8 → get_stone_position stones team idx = none) :
    ∀ r ∈ stoneRefList stones, r.distance = ⊤ := by
  intro r hr
  rcases List.mem_append.mp hr with hr | hr <;>
    obtain ⟨idx, hidx, rfl⟩ := List.mem_map.mp hr
  · show stoneDistance stones 0 idx = ⊤
    rw [stoneDistance, h 0 idx (by norm_num) (List.mem_range.mp hidx)]
  · show stoneDistance stones 1 idx = ⊤
    rw [stoneDistance, h 1 idx (by norm_num) (List.mem_range.mp hidx)]

theorem sort_stones_all_top (stones : Stones)
    (h : ∀ team idx, team < 2 → idx < 8 → get_stone_position stones team idx = none) :
    ∀ r ∈ sort_stones_by_distance stones, r.distance = ⊤ :=
  fun r hr => stoneRefList_all_top stones h r (List.mem_mergeSort.mp hr)

theorem emptyStones_all_none :
    ∀ team idx, team < 2 → idx < 8 → get_stone_position emptyStones team idx = none := by
  intro team idx _ _
  rw [get_stone_position]
  simp [emptyStones]

theorem sort_headI_top (stones : Stones)
    (h : ∀ team idx, team < 2 → idx < 8 → get_stone_position stones team idx = none) :
    (sort_stones_by_distance stones).headI.distance = ⊤ := by
  obtain ⟨a, t, he⟩ := List.exists_cons_of_ne_nil (sort_stones_ne_nil stones)
  rw [he]
  exact sort_stones_all_top stones h a (he ▸ List.mem_cons_self a t)

theorem in_house_refs_nil (stones : Stones)
    (h : ∀ team idx, team < 2 → idx < 8 → get_stone_position stones team idx = none) :
    CurlFighter02.in_house_refs stones = [] := by
  rw [CurlFighter02.in_house_refs, List.filter_eq_nil_iff]
  intro r hr
  rw [sort_stones_all_top stones h r hr]
  simp

theorem atan2_pos_y (y : Real) (hy : 0 < y) : atan2 y 0 = Real.pi / 2 := by
  rw [atan2, if_neg (lt_irrefl 0), if_neg (lt_irrefl 0), if_pos hy]

theorem target_r_TEE : CurlFighter00.target_r TEE = 38.405 := by
  rw [CurlFighter00.target_r]
  have h : TEE.x ^ 2 + TEE.y ^ 2 = (38.405 : Real) ^ 2 := by
    show (0 : Real) ^ 2 + (38.405 : Real) ^ 2 = (38.405 : Real) ^ 2
    norm_num
  rw [h, Real.sqrt_sq (by norm_num)]

theorem kC1_zero : CurlFighter00.kC1 0
    = (0.00046669575066030805, -29.898958358378636, -0.0014030973174948508) := by
  rw [CurlFighter00.kC1, if_pos (by norm_num : (0 : Real) ≤ 0.05)]

theorem logArg_TEE_zero_pos : 0 < CurlFighter00.logArg TEE 0 := by
  rw [CurlFighter00.logArg, target_r_TEE, kC1_zero]
  norm_num

theorem quad_TEE_zero : CurlFighter00.quad TEE 0
    = 0.13968687866736632 * 38.405 + 0.41120940058777616 := by
  rw [CurlFighter00.quad, target_r_TEE]
  rw [CurlFighter00.c2, CurlFighter00.kC2, if_pos (by norm_num : (0 : Real) ≤ 0.05)]
  norm_num

theorem quad_TEE_zero_pos : 0 < CurlFighter00.quad TEE 0 := by
  rw [quad_TEE_zero]
  norm_num

theorem spec_v0_eq_sqrt_quad (target : Position) (desiredSpeed : Real) :
    CurlFighter00.spec_v0 target desiredSpeed
      = Real.sqrt (CurlFighter00.quad target desiredSpeed) := rfl

theorem spec_vy_TEE_zero_pos : 0 < CurlFighter00.spec_vy TEE 0 .counterclockwise := by
  rw [CurlFighter00.spec_vy]
  have hx : TEE.x = 0 := rfl
  have hy : TEE.y = (38.405 : Real) := rfl
  rw [hx, hy, atan2_pos_y _ (by norm_num), CurlFighter00.spinSign, if_pos rfl,
    CurlFighter00.spec_K, target_r_TEE]
  have hpos : 0 < Real.pi / 2 + 1 * 0.25 / 38.405 := by positivity
  have hlt : Real.pi / 2 + 1 * 0.25 / 38.405 < Real.pi := by
    nlinarith [Real.pi_gt_three]
  exact mul_pos (spec_v0_eq_sqrt_quad TEE 0 ▸ Real.sqrt_pos.mpr quad_TEE_zero_pos)
    (Real.sin_pos_of_pos_of_lt_pi hpos hlt)

theorem decide00_empty_parity (shot : Nat) :
    CurlFighter00.ThinkingAI.decide ⟨emptyStones, shot⟩ "team0"
      = if shot % 2 = 0 then .ok CENTER_SHOT else .ok GUARD_SHOT := by
  rw [CurlFighter00.ThinkingAI.decide]
  rw [if_neg (fun hc => absurd hc.1 (by
    show ¬((sort_stones_by_distance emptyStones).headI.distance < _)
    rw [sort_headI_top emptyStones emptyStones_all_none]
    exact not_top_lt))]

theorem candidates_empty_branch (state : State) (my : Nat)
    (h : ∀ team idx, team < 2 → idx < 8 → get_stone_position state.stones team idx = none) :
    CurlFighter02.candidates state my
      = [(TEE, 2.5, .counterclockwise), (TEE, 4.0, .counterclockwise),
          (FRONT, 2.5, .counterclockwise)] := by
  rw [CurlFighter02.candidates,
    if_pos (List.isEmpty_iff.mpr (in_house_refs_nil state.stones h))]

theorem spec_house_count_allTee (team : Nat) :
    CurlFighter02.spec_house_count (fun _ => (0, 38.405)) team = 8 := by
  rw [CurlFighter02.spec_house_count]
  rw [List.filter_eq_self.mpr (fun a _ => by norm_num [TEE, HOUSE_RADIUS, Real.sqrt_zero])]
  simp

theorem scoreLoop_allTee_zero : CurlFighter02.scoreLoop (fun _ => (0, 38.405)) 0 = 0 := by
  rw [scoreLoop_eq_counts, spec_house_count_allTee, spec_house_count_allTee]
  norm_num

theorem spec_house_count_le_8 (result : Nat → Real × Real) (team : Nat) :
    CurlFighter02.spec_house_count result team ≤ 8 := by
  rw [CurlFighter02.spec_house_count]
  exact (List.length_filter_le _ _).trans_eq (List.length_range 8)

theorem scoreLoop_bounds (result : Nat → Real × Real) (my : Nat)
    (h : my = 0 ∨ my = 1) :
    -8 ≤ CurlFighter02.scoreLoop result my ∧ CurlFighter02.scoreLoop result my ≤ 8 := by
  have hc0le : (CurlFighter02.spec_house_count result 0 : Real) ≤ 8 := by
    exact_mod_cast Nat.cast_le.mpr (spec_house_count_le_8 result 0)
  have hc1le : (CurlFighter02.spec_house_count result 1 : Real) ≤ 8 := by
    exact_mod_cast Nat.cast_le.mpr (spec_house_count_le_8 result 1)
  have hc0nn : (0 : Real) ≤ (CurlFighter02.spec_house_count result 0 : Real) :=
    Nat.cast_nonneg _
  have hc1nn : (0 : Real) ≤ (CurlFighter02.spec_house_count result 1 : Real) :=
    Nat.cast_nonneg _
  rcases h with rfl | rfl
  · rw [scoreLoop_eq_counts, if_pos rfl, if_neg (by norm_num : ¬(1 : Nat) = 0)]
    constructor
    · linarith
    · linarith
  · rw [scoreLoop_eq_counts, if_neg (by norm_num : ¬(0 : Nat) = 1), if_pos rfl]
    constructor
    · linarith
    · linarith

theorem candidates_length_3 (state : State) (side : Nat) :
    (CurlFighter02.candidates state side).length = 3 := by
  rw [CurlFighter02.candidates]
  split_ifs <;> rfl

theorem estimate00_TEE_zero :
    CurlFighter00.estimate_shot_velocity_fcv1 TEE 0 .clockwise
      = .ok (Real.sqrt (CurlFighter00.quad TEE 0)
            * Real.cos (atan2 TEE.y TEE.x
                + CurlFighter00.rotation_factor .clockwise * 0.25
                  / CurlFighter00.target_r TEE),
          Real.sqrt (CurlFighter00.quad TEE 0)
            * Real.sin (atan2 TEE.y TEE.x
                + CurlFighter00.rotation_factor .clockwise * 0.25
                  / CurlFighter00.target_r TEE)) := by
  rw [CurlFighter00.estimate_shot_velocity_fcv1,
    if_neg (not_not_intro (by norm_num : (0 : Real) ≤ 0 ∧ (0 : Real) ≤ 4)),
    if_neg (not_not_intro (by rw [target_r_TEE]; norm_num
      : (0 : Real) < CurlFighter00.target_r TEE)),
    if_neg (not_le.mpr logArg_TEE_zero_pos),
    if_neg (not_lt.mpr (le_of_lt quad_TEE_zero_pos)),
    if_neg (not_not_intro (Real.sqrt_pos.mpr quad_TEE_zero_pos))]

/-! Claim theorems. -/

/-- **C1** (amended): the CurlFighter00 estimator returns exactly the reference value of the
claim (regime-selected v0 magnitude and the curl-corrected cos and sin components, K = 0.25)
whenever its run succeeds, that is whenever the speed range and r > 0 preconditions, the
math.log and math.sqrt domain conditions, and the desiredSpeed < v0 postcondition all hold;
the CurlFighter02 estimator does not implement that model: it returns the vector of
magnitude desiredSpeed at bearing atan2(target.y - 2.4, target.x). -/
theorem c1_estimator_reference_model :
    (∀ (t : Position) (s : Real) (rot : StoneRotation),
        0 ≤ s → s ≤ 4 → 0 < CurlFighter00.target_r t →
        0 < CurlFighter00.logArg t s → 0 ≤ CurlFighter00.quad t s →
        s < Real.sqrt (CurlFighter00.quad t s) →
        CurlFighter00.estimate_shot_velocity_fcv1 t s rot
          = .ok (CurlFighter00.spec_vx t s rot, CurlFighter00.spec_vy t s rot))
    ∧ (∀ (t : Position) (s : Real) (rot : StoneRotation),
        CurlFighter02.estimate_shot_velocity_fcv1 t s rot
            = (Real.cos (atan2 (t.y - 2.4) t.x) * s, Real.sin (atan2 (t.y - 2.4) t.x) * s)
          ∧ (CurlFighter02.estimate_shot_velocity_fcv1 t s rot).1 ^ 2
              + (CurlFighter02.estimate_shot_velocity_fcv1 t s rot).2 ^ 2 = s ^ 2) := by
  constructor
  · intro t s rot h1 h2 hr hlog hq hpost
    rw [CurlFighter00.estimate_shot_velocity_fcv1,
      if_neg (not_not_intro ⟨h1, h2⟩), if_neg (not_not_intro hr),
      if_neg (not_le.mpr hlog), if_neg (not_lt.mpr hq), if_neg (not_not_intro hpost)]
    rfl
  · intro t s rot
    refine ⟨rfl, ?_⟩
    show (Real.cos (atan2 (t.y - 2.4) t.x) * s) ^ 2
        + (Real.sin (atan2 (t.y - 2.4) t.x) * s) ^ 2 = s ^ 2
    linear_combination s ^ 2 * Real.sin_sq_add_cos_sq (atan2 (t.y - 2.4) t.x)

/-- **C1** counterexample: at target TEE (so r = 38.405 > 0), desiredSpeed 0 ∈ [0, 4] and
counterclockwise spin, the CurlFighter02 estimator (cited by the claim) returns vy = 0,
while the reference value of the claim has a strictly positive vy; the claim is false as
stated for that estimator. -/
theorem c1_counterexample :
    (CurlFighter02.estimate_shot_velocity_fcv1 TEE 0 .counterclockwise).2 = 0
    ∧ 0 < CurlFighter00.spec_vy TEE 0 .counterclockwise := by
  constructor
  · show Real.sin (atan2 (TEE.y - 2.4) TEE.x) * 0 = 0
    exact mul_zero _
  · exact spec_vy_TEE_zero_pos

/-- Witness for C1 at the concrete input (TEE, 0, clockwise). -/
theorem c1_witness :
    (0 : Real) ≤ 0 ∧ (0 : Real) ≤ 4 ∧ 0 < CurlFighter00.target_r TEE
    ∧ 0 < CurlFighter00.logArg TEE 0 ∧ 0 ≤ CurlFighter00.quad TEE 0
    ∧ (0 : Real) < Real.sqrt (CurlFighter00.quad TEE 0)
    ∧ CurlFighter00.estimate_shot_velocity_fcv1 TEE 0 .clockwise
        = .ok (CurlFighter00.spec_vx TEE 0 .clockwise,
            CurlFighter00.spec_vy TEE 0 .clockwise) :=
  ⟨le_refl 0, by norm_num, by rw [target_r_TEE]; norm_num, logArg_TEE_zero_pos,
    le_of_lt quad_TEE_zero_pos, Real.sqrt_pos.mpr quad_TEE_zero_pos,
    c1_estimator_reference_model.1 TEE 0 .clockwise (le_refl 0) (by norm_num)
      (by rw [target_r_TEE]; norm_num) logArg_TEE_zero_pos (le_of_lt quad_TEE_zero_pos)
      (Real.sqrt_pos.mpr quad_TEE_zero_pos)⟩

/-- **C2**: whenever the CurlFighter00 estimator returns a velocity pair, the magnitude of
that pair strictly exceeds the desired release speed; a postcondition violation is signaled
as an error instead (so a launch speed at or below the desired speed is never returned). -/
theorem c2_launch_speed_exceeds_desired (t : Position) (s : Real) (rot : StoneRotation)
    (p : Real × Real) (h : CurlFighter00.estimate_shot_velocity_fcv1 t s rot = .ok p) :
    s < Real.sqrt (p.1 ^ 2 + p.2 ^ 2) := by
  rw [CurlFighter00.estimate_shot_velocity_fcv1] at h
  split_ifs at h with h1 h2 h3 h4 h5
  · injection h with hp
    rw [← hp]
    have hid : (Real.sqrt (CurlFighter00.quad t s)
          * Real.cos (atan2 t.y t.x
            + CurlFighter00.rotation_factor rot * 0.25 / CurlFighter00.target_r t)) ^ 2
        + (Real.sqrt (CurlFighter00.quad t s)
          * Real.sin (atan2 t.y t.x
            + CurlFighter00.rotation_factor rot * 0.25 / CurlFighter00.target_r t)) ^ 2
        = Real.sqrt (CurlFighter00.quad t s) ^ 2 := by
      linear_combination Real.sqrt (CurlFighter00.quad t s) ^ 2
        * Real.sin_sq_add_cos_sq (atan2 t.y t.x
            + CurlFighter00.rotation_factor rot * 0.25 / CurlFighter00.target_r t)
    rw [hid, Real.sqrt_sq (Real.sqrt_nonneg _)]
    exact h5

/-- Witness for C2 at the concrete input (TEE, 0, clockwise). -/
theorem c2_witness :
    (match CurlFighter00.estimate_shot_velocity_fcv1 TEE 0 .clockwise with
      | .ok p => (0 : Real) < Real.sqrt (p.1 ^ 2 + p.2 ^ 2)
      | .error _ => False) := by
  rw [estimate00_TEE_zero]
  exact c2_launch_speed_exceeds_desired TEE 0 .clockwise _ estimate00_TEE_zero

/-- **C5**: the score computed by evaluate_shot equals the number of acting-team stones
whose simulated final position is within HOUSE_RADIUS of the tee minus the number of
opponent stones within the same radius, and nothing else. -/
theorem c5_score_is_house_count_difference (sim : CurlFighter02.SimFun) (state : State)
    (my_team_idx : Nat) (target : Position) (speed : Real) (rot : StoneRotation)
    (h : my_team_idx = 0 ∨ my_team_idx = 1) :
    (CurlFighter02.evaluate_shot sim state my_team_idx target speed rot).2.2.2
      = (CurlFighter02.spec_house_count
            (CurlFighter02.simResult sim state.stones target speed rot) my_team_idx : Real)
        - (CurlFighter02.spec_house_count
            (CurlFighter02.simResult sim state.stones target speed rot)
            (1 - my_team_idx) : Real) := by
  have hval : (CurlFighter02.evaluate_shot sim state my_team_idx target speed rot).2.2.2
      = CurlFighter02.scoreLoop
          (CurlFighter02.simResult sim state.stones target speed rot) my_team_idx := rfl
  rw [hval, scoreLoop_eq_counts]
  rcases h with rfl | rfl <;> norm_num <;> ring

/-- Witness for C5 at a concrete simulator stub, the empty board and acting team 0. -/
theorem c5_witness :
    ((0 : Nat) = 0 ∨ (0 : Nat) = 1)
    ∧ (CurlFighter02.evaluate_shot simAllAtTeeValid ⟨emptyStones, 0⟩ 0 TEE 2.5
          .counterclockwise).2.2.2
      = (CurlFighter02.spec_house_count
            (CurlFighter02.simResult simAllAtTeeValid emptyStones TEE 2.5
              .counterclockwise) 0 : Real)
        - (CurlFighter02.spec_house_count
            (CurlFighter02.simResult simAllAtTeeValid emptyStones TEE 2.5
              .counterclockwise) (1 - 0) : Real) :=
  ⟨Or.inl rfl, c5_score_is_house_count_difference simAllAtTeeValid ⟨emptyStones, 0⟩ 0 TEE 2.5
    .counterclockwise (Or.inl rfl)⟩

/-- **C6** (amended): evaluate_shot ignores the validity flag returned by the simulator:
for any flag value the candidate receives the ordinary count-based score, so a candidate
whose simulation reports an invalid result is not disqualified. -/
theorem c6_amended_validity_flag_ignored (sim : CurlFighter02.SimFun) (b : Bool)
    (state : State) (my_team_idx : Nat) (target : Position) (speed : Real)
    (rot : StoneRotation) :
    CurlFighter02.evaluate_shot (fun inp => ((sim inp).1, b)) state my_team_idx target
        speed rot
      = CurlFighter02.evaluate_shot sim state my_team_idx target speed rot := rfl

/-- **C6** counterexample: with a simulator stub whose validity flag is false (and all
stones settling on the tee), evaluate_shot returns the plain count-based score 0 for the
candidate instead of disqualifying it with the worst possible score. -/
theorem c6_counterexample :
    CurlFighter02.simFlag simAllAtTeeInvalid emptyStones TEE 2.5 .counterclockwise = false
    ∧ (CurlFighter02.evaluate_shot simAllAtTeeInvalid ⟨emptyStones, 0⟩ 0 TEE 2.5
        .counterclockwise).2.2.2 = 0 := by
  refine ⟨rfl, ?_⟩
  show CurlFighter02.scoreLoop (fun _ => (0, 38.405)) 0 = 0
  exact scoreLoop_allTee_zero

/-- **C8**: for every board with no stones in play, the candidate generator takes the empty
board branch and the first generated candidate targets the tee. -/
theorem c8_empty_board_first_candidate (state : State) (my_team_idx : Nat)
    (h : ∀ team idx, team < 2 → idx < 8 → get_stone_position state.stones team idx = none) :
    CurlFighter02.candidates state my_team_idx
      = [(TEE, 2.5, .counterclockwise), (TEE, 4.0, .counterclockwise),
          (FRONT, 2.5, .counterclockwise)]
    ∧ ((CurlFighter02.candidates state my_team_idx).head?.map Prod.fst) = some TEE := by
  refine ⟨candidates_empty_branch state my_team_idx h, ?_⟩
  rw [candidates_empty_branch state my_team_idx h]
  rfl

/-- Witness for C8 at the all-absent board. -/
theorem c8_witness :
    CurlFighter02.candidates ⟨emptyStones, 0⟩ 0
      = [(TEE, 2.5, .counterclockwise), (TEE, 4.0, .counterclockwise),
          (FRONT, 2.5, .counterclockwise)]
    ∧ ((CurlFighter02.candidates ⟨emptyStones, 0⟩ 0).head?.map Prod.fst) = some TEE :=
  c8_empty_board_first_candidate ⟨emptyStones, 0⟩ 0 emptyStones_all_none

/-- **C9**: in the CurlFighter01 variant, for every target, every target_speed in [0, 4]
and every rotation, estimate_shot_velocity_fcv1 raises (the name rot_sign is never bound,
so NameError) and never returns a velocity pair, for any input whatsoever. -/
theorem c9_cf01_estimator_always_raises :
    (∀ (t : Position) (s : Real) (rot : StoneRotation), 0 ≤ s → s ≤ 4 →
      CurlFighter01.estimate_shot_velocity_fcv1 t s rot = .error .nameError)
    ∧ (∀ (t : Position) (s : Real) (rot : StoneRotation) (p : Real × Real),
      CurlFighter01.estimate_shot_velocity_fcv1 t s rot ≠ .ok p) := by
  constructor
  · intro t s rot h1 h2
    rw [CurlFighter01.estimate_shot_velocity_fcv1, if_neg (not_not_intro ⟨h1, h2⟩),
      if_neg (not_not_intro ⟨h1, h2⟩)]
  · intro t s rot p
    rw [CurlFighter01.estimate_shot_velocity_fcv1]
    split_ifs <;> simp

/-- Witness for C9 at the concrete input (TEE, 3, counterclockwise). -/
theorem c9_witness :
    (0 : Real) ≤ 3 ∧ (3 : Real) ≤ 4
    ∧ CurlFighter01.estimate_shot_velocity_fcv1 TEE 3 .counterclockwise
        = .error .nameError :=
  ⟨by norm_num, by norm_num,
    c9_cf01_estimator_always_raises.1 TEE 3 .counterclockwise (by norm_num) (by norm_num)⟩

/-- **C3**: sort_stones_by_distance returns a permutation of the full (team, idx)
enumeration (16 refs: team 0 indices 0..7 then team 1 indices 0..7), sorted ascending by
distance to the tee, absent stones carrying the +infinity sentinel so they sort last, and
the sort is stable: refs with equal distances keep their enumeration order. -/
theorem c3_distance_sort (stones : Stones) :
    (sort_stones_by_distance stones).Perm (stoneRefList stones)
    ∧ (sort_stones_by_distance stones).length = 16
    ∧ (sort_stones_by_distance stones).Pairwise (fun a b => a.distance ≤ b.distance)
    ∧ (∀ team idx, team < 2 → idx < 8 → get_stone_position stones team idx = none →
        (⟨team, idx, ⊤⟩ : StoneRef) ∈ sort_stones_by_distance stones)
    ∧ (∀ a b : StoneRef, a.distance = b.distance →
        [a, b].Sublist (stoneRefList stones) →
        [a, b].Sublist (sort_stones_by_distance stones)) := by
  refine ⟨List.mergeSort_perm _ _, length_sort_stones stones, ?_, ?_, ?_⟩
  · have hp := List.sorted_mergeSort distLE_trans distLE_total (stoneRefList stones)
    exact hp.imp (fun hab => by simpa [distLE] using hab)
  · intro team idx ht hi hnone
    have hmem : (⟨team, idx, stoneDistance stones team idx⟩ : StoneRef)
        ∈ stoneRefList stones := mem_stoneRefList_of_lt stones team idx ht hi
    rw [stoneDistance, hnone] at hmem
    exact List.mem_mergeSort.mpr hmem
  · intro a b hab hsub
    refine List.sublist_mergeSort distLE_trans distLE_total ?_ hsub
    refine List.pairwise_cons.mpr ⟨?_, List.pairwise_singleton _ _⟩
    intro y hy
    rw [List.mem_singleton.mp hy]
    show distLE a b
    simpa [distLE] using le_of_eq hab

/-- Witness for C3: the all-absent board, where every ref has the ⊤ sentinel distance and
any two refs tie. -/
theorem c3_witness :
    ((⟨0, 0, ⊤⟩ : StoneRef) ∈ sort_stones_by_distance emptyStones)
    ∧ [(⟨0, 0, ⊤⟩ : StoneRef), ⟨0, 1, ⊤⟩].Sublist (sort_stones_by_distance emptyStones) := by
  constructor
  · exact (c3_distance_sort emptyStones).2.2.2.1 0 0 (by norm_num) (by norm_num)
      (emptyStones_all_none 0 0 (by norm_num) (by norm_num))
  · refine (c3_distance_sort emptyStones).2.2.2.2 _ _ rfl ?_
    have he : stoneRefList emptyStones
        = (⟨0, 0, ⊤⟩ : StoneRef) :: (⟨0, 1, ⊤⟩ : StoneRef)
          :: [(⟨0, 2, ⊤⟩ : StoneRef), ⟨0, 3, ⊤⟩, ⟨0, 4, ⊤⟩, ⟨0, 5, ⊤⟩, ⟨0, 6, ⊤⟩,
              ⟨0, 7, ⊤⟩, ⟨1, 0, ⊤⟩, ⟨1, 1, ⊤⟩, ⟨1, 2, ⊤⟩, ⟨1, 3, ⊤⟩, ⟨1, 4, ⊤⟩,
              ⟨1, 5, ⊤⟩, ⟨1, 6, ⊤⟩, ⟨1, 7, ⊤⟩] := rfl
    rw [he]
    exact ((List.nil_sublist _).cons₂ _).cons₂ _

/-- **C4**: the shot selector returns the first candidate in generation order attaining the
maximum score (the comparison against the best score so far is strict), and in particular
for two equal-score candidates [A, B] it returns A. -/
theorem c4_selector_first_max :
    (∀ l : List (CurlFighter02.Shot × Real), l ≠ [] →
      ∃ i, ∃ hi : i < l.length,
        CurlFighter02.selectBestShot l = some (l.get ⟨i, hi⟩).1
        ∧ (∀ j, ∀ hj : j < l.length, (l.get ⟨j, hj⟩).2 ≤ (l.get ⟨i, hi⟩).2)
        ∧ (∀ j, ∀ hj : j < i, (l.get ⟨j, Nat.lt_trans hj hi⟩).2 < (l.get ⟨i, hi⟩).2))
    ∧ (∀ (A B : CurlFighter02.Shot) (s : Real),
        CurlFighter02.selectBestShot [(A, s), (B, s)] = some A) := by
  constructor
  · intro l hl
    have hne : ∃ e ∈ l, (⊥ : WithBot Real) < ((e.2 : Real) : WithBot Real) := by
      obtain ⟨e, t, rfl⟩ := List.exists_cons_of_ne_nil hl
      exact ⟨e, List.mem_cons_self e t, WithBot.bot_lt_coe _⟩
    obtain ⟨i, hi, heq, _, hmax, hearlier⟩ := selLoop_firstMax l none ⊥ hne
    refine ⟨i, hi, ?_, hmax, ?_⟩
    · rw [CurlFighter02.selectBestShot, heq]
    · intro j hj
      rcases hearlier j hj with hle | hlt
      · exact absurd hle (by simp)
      · exact hlt
  · intro A B s
    rw [CurlFighter02.selectBestShot, List.foldl_cons, List.foldl_cons, List.foldl_nil]
    have h1 : CurlFighter02.selStep (none, ⊥) (A, s) = (some A, ((s : Real) : WithBot Real)) := by
      rw [CurlFighter02.selStep, if_pos (WithBot.bot_lt_coe s)]
    rw [h1]
    have h2 : CurlFighter02.selStep (some A, ((s : Real) : WithBot Real)) (B, s)
        = (some A, ((s : Real) : WithBot Real)) := by
      rw [CurlFighter02.selStep, if_neg (lt_irrefl _)]
    rw [h2]

/-- Witness for C4 at a concrete two-candidate tie. -/
theorem c4_witness :
    sampleScored ≠ []
    ∧ CurlFighter02.selectBestShot sampleScored
        = some ((0 : Real), (1 : Real), StoneRotation.counterclockwise)
    ∧ ∃ i, ∃ hi : i < sampleScored.length,
        CurlFighter02.selectBestShot sampleScored = some (sampleScored.get ⟨i, hi⟩).1
        ∧ (∀ j, ∀ hj : j < sampleScored.length,
            (sampleScored.get ⟨j, hj⟩).2 ≤ (sampleScored.get ⟨i, hi⟩).2)
        ∧ (∀ j, ∀ hj : j < i,
            (sampleScored.get ⟨j, Nat.lt_trans hj hi⟩).2 < (sampleScored.get ⟨i, hi⟩).2) :=
  ⟨List.cons_ne_nil _ _, c4_selector_first_max.2 _ _ 3,
    c4_selector_first_max.1 sampleScored (List.cons_ne_nil _ _)⟩

/-- **C7** (amended): in CurlFighter02 the candidate list is a deterministic, stateless
function of the distance ranking and the acting side only (equal rankings give identical
candidates whatever the rest of the state, including the shot counter), the list is always
non-empty (exactly three candidates) and is produced by exactly one of three mutually
exclusive board-state branches; in CurlFighter00, by contrast, the decision depends on the
shot counter. -/
theorem c7_candidates_stateless :
    (∀ (s1 s2 : State) (side : Nat),
        sort_stones_by_distance s1.stones = sort_stones_by_distance s2.stones →
        CurlFighter02.candidates s1 side = CurlFighter02.candidates s2 side)
    ∧ (∀ (state : State) (side : Nat),
        CurlFighter02.candidates state side ≠ []
        ∧ (CurlFighter02.candidates state side).length = 3)
    ∧ (∀ (state : State) (side : Nat),
        (CurlFighter02.in_house_refs state.stones = []
            ∧ CurlFighter02.candidates state side
              = [(TEE, 2.5, .counterclockwise), (TEE, 4.0, .counterclockwise),
                  (FRONT, 2.5, .counterclockwise)])
        ∨ (CurlFighter02.in_house_refs state.stones ≠ []
            ∧ (sort_stones_by_distance state.stones).headI.team = side
            ∧ CurlFighter02.candidates state side
              = [(FRONT, 2.5, .counterclockwise), (BACK, 2.5, .counterclockwise),
                  (BACK, 3.0, .counterclockwise)])
        ∨ (CurlFighter02.in_house_refs state.stones ≠ []
            ∧ (sort_stones_by_distance state.stones).headI.team ≠ side
            ∧ CurlFighter02.candidates state side
              = [(TEE, 4.0, .counterclockwise), (TEE, 4.0, .clockwise),
                  (TEE, 3.5, .counterclockwise)])) := by
  refine ⟨?_, ?_, ?_⟩
  · intro s1 s2 side h
    rw [CurlFighter02.candidates, CurlFighter02.candidates,
      CurlFighter02.in_house_refs, CurlFighter02.in_house_refs, h]
  · intro state side
    rw [CurlFighter02.candidates]
    split_ifs <;> exact ⟨by simp, rfl⟩
  · intro state side
    by_cases hin : (CurlFighter02.in_house_refs state.stones).isEmpty
    · exact Or.inl ⟨List.isEmpty_iff.mp hin,
        by rw [CurlFighter02.candidates, if_pos hin]⟩
    · by_cases hteam : (sort_stones_by_distance state.stones).headI.team = side
      · exact Or.inr (Or.inl ⟨fun hnil => hin (List.isEmpty_iff.mpr hnil), hteam,
          by rw [CurlFighter02.candidates, if_neg hin, if_pos hteam]⟩)
      · exact Or.inr (Or.inr ⟨fun hnil => hin (List.isEmpty_iff.mpr hnil), hteam,
          by rw [CurlFighter02.candidates, if_neg hin, if_neg hteam]⟩)

/-- **C7** counterexample: two CurlFighter00 decision calls on the same board (hence the
same ranking) and the same acting side but different shot counters produce different shots,
so the decision of that cited variant is not a function of ranking and side alone. -/
theorem c7_counterexample :
    CurlFighter00.ThinkingAI.decide ⟨emptyStones, 0⟩ "team0" = .ok CENTER_SHOT
    ∧ CurlFighter00.ThinkingAI.decide ⟨emptyStones, 1⟩ "team0" = .ok GUARD_SHOT
    ∧ CENTER_SHOT ≠ GUARD_SHOT := by
  refine ⟨?_, ?_, ?_⟩
  · rw [decide00_empty_parity 0, if_pos (by norm_num)]
  · rw [decide00_empty_parity 1, if_neg (by norm_num)]
  · intro hc
    have h1 : (0.131725 : Real) = 0.127987 := congrArg Prod.fst hc
    norm_num at h1

/-- Witness for C7: two snapshots with identical boards but different shot counters get
identical CurlFighter02 candidate lists. -/
theorem c7_witness :
    sort_stones_by_distance emptyStones = sort_stones_by_distance emptyStones
    ∧ CurlFighter02.candidates ⟨emptyStones, 0⟩ 0
        = CurlFighter02.candidates ⟨emptyStones, 5⟩ 0 :=
  ⟨rfl, c7_candidates_stateless.1 ⟨emptyStones, 0⟩ ⟨emptyStones, 5⟩ 0 rfl⟩

/-- **C10**: CurlFighter02.ThinkingAI.decide always returns a shot (never none), and that
shot is one of the evaluated candidate launch velocities; every branch generates exactly
three candidates; and every evaluated score is a finite value within [-8, 8]. -/
theorem c10_decide_always_some :
    (∀ (sim : CurlFighter02.SimFun) (state : State) (my_team : String),
        ∃ v : CurlFighter02.Shot,
          CurlFighter02.ThinkingAI.decide sim state my_team = some v
          ∧ v ∈ (CurlFighter02.scoredCandidates sim state
              (if my_team = "team0" then 0 else 1)).map Prod.fst)
    ∧ (∀ (state : State) (side : Nat), (CurlFighter02.candidates state side).length = 3)
    ∧ (∀ (sim : CurlFighter02.SimFun) (state : State) (my_team_idx : Nat)
        (target : Position) (speed : Real) (rot : StoneRotation),
        my_team_idx = 0 ∨ my_team_idx = 1 →
        -8 ≤ (CurlFighter02.evaluate_shot sim state my_team_idx target speed rot).2.2.2
        ∧ (CurlFighter02.evaluate_shot sim state my_team_idx target speed rot).2.2.2 ≤ 8) := by
  refine ⟨?_, candidates_length_3, ?_⟩
  · intro sim state my_team
    have hlen : (CurlFighter02.scoredCandidates sim state
        (if my_team = "team0" then 0 else 1)).length = 3 := by
      rw [CurlFighter02.scoredCandidates, List.length_map, candidates_length_3]
    have hne : CurlFighter02.scoredCandidates sim state
        (if my_team = "team0" then 0 else 1) ≠ [] :=
      List.length_pos.mp (by rw [hlen]; norm_num)
    have hex : ∃ e ∈ CurlFighter02.scoredCandidates sim state
        (if my_team = "team0" then 0 else 1),
        (⊥ : WithBot Real) < ((e.2 : Real) : WithBot Real) := by
      obtain ⟨e, t, he⟩ := List.exists_cons_of_ne_nil hne
      exact ⟨e, he ▸ List.mem_cons_self e t, WithBot.bot_lt_coe _⟩
    obtain ⟨i, hi, heq, _, _, _⟩ := selLoop_firstMax _ none ⊥ hex
    refine ⟨((CurlFighter02.scoredCandidates sim state
        (if my_team = "team0" then 0 else 1)).get ⟨i, hi⟩).1, ?_, ?_⟩
    · rw [CurlFighter02.ThinkingAI.decide, CurlFighter02.selectBestShot, heq]
    · exact List.mem_map.mpr ⟨_, List.get_mem _ _ _, rfl⟩
  · intro sim state my_team_idx target speed rot h
    have hval : (CurlFighter02.evaluate_shot sim state my_team_idx target speed rot).2.2.2
        = CurlFighter02.scoreLoop
            (CurlFighter02.simResult sim state.stones target speed rot) my_team_idx := rfl
    rw [hval]
    exact scoreLoop_bounds _ my_team_idx h

/-- Witness for C10 at a concrete simulator stub, board and side. -/
theorem c10_witness :
    (∃ v : CurlFighter02.Shot,
        CurlFighter02.ThinkingAI.decide simAllAtTeeValid ⟨emptyStones, 0⟩ "team0" = some v
        ∧ v ∈ (CurlFighter02.scoredCandidates simAllAtTeeValid ⟨emptyStones, 0⟩
            (if "team0" = "team0" then 0 else 1)).map Prod.fst)
    ∧ ((0 : Nat) = 0 ∨ (0 : Nat) = 1)
    ∧ -8 ≤ (CurlFighter02.evaluate_shot simAllAtTeeValid ⟨emptyStones, 0⟩ 0 TEE 2.5
          .counterclockwise).2.2.2
    ∧ (CurlFighter02.evaluate_shot simAllAtTeeValid ⟨emptyStones, 0⟩ 0 TEE 2.5
          .counterclockwise).2.2.2 ≤ 8 :=
  ⟨c10_decide_always_some.1 simAllAtTeeValid ⟨emptyStones, 0⟩ "team0", Or.inl rfl,
    (c10_decide_always_some.2.2 simAllAtTeeValid ⟨emptyStones, 0⟩ 0 TEE 2.5
      .counterclockwise (Or.inl rfl)).1,
    (c10_decide_always_some.2.2 simAllAtTeeValid ⟨emptyStones, 0⟩ 0 TEE 2.5
      .counterclockwise (Or.inl rfl)).2⟩

end DC3
